import Mathlib

/-!
# Verification of the request-construction and response-normalization layer
of the `cloudflare_scan` client library.

The definitions below are a shallow embedding of `src/cloudflare_scan/`
(`response.py`, `client.py`, `builder.py`, `helpers.py`).  Python values that
may be `None` are modelled as `Option`; Python exceptions are modelled with
`Except`; the JSON values produced by the standard-library parser are
modelled by an inductive `Json` type.
-/

namespace CloudflareScan

/-- JSON values as produced by Python's `json` module (`dict` → `obj` with
insertion-ordered fields, `list` → `arr`, strings, numbers, booleans, null). -/
inductive Json : Type where
  | null : Json
  | bool (b : Bool) : Json
  | num (n : Int) : Json
  | str (s : String) : Json
  | arr (elems : List Json) : Json
  | obj (fields : List (String × Json)) : Json

/-- Python exceptions that the response accessors can raise. -/
inductive PyError : Type where
  | parseError : PyError
  | attributeError : PyError
deriving DecidableEq

/-- The relevant surface of an `httpx.Response`: status code, body text, and
the outcome of `response.json()`.  Parsing the body is done by the external
`httpx`/stdlib collaborator, so it is modelled by its outcome: `some j` when
the body is valid JSON parsing to `j`, `none` when `.json()` raises a parse
error (`json.JSONDecodeError`). -/
structure HttpxResponse : Type where
  status_code : Int
  text : String
  jsonBody : Option Json

/-- `CloudflareURLScanResponse.__init__` stores the raw response in `self.data`. -/
structure CloudflareURLScanResponse : Type where
  data : HttpxResponse

/-- Python `dict.get(k)` as an `Option`: the value at key `k`, if present. -/
def lookup (fields : List (String × Json)) (k : String) : Option Json :=
  match fields.find? (fun kv => kv.1 = k) with
  | some kv => some kv.2
  | none => none

/-- Python `dict.get(k, default)`. -/
def dictGet (fields : List (String × Json)) (k : String) (default : Json) : Json :=
  match lookup fields k with
  | some v => v
  | none => default

/-- Calling a `dict` method (`.get`) on a JSON value: succeeds only on objects,
anything else raises `AttributeError` in Python. -/
def asDict : Json → Except PyError (List (String × Json))
  | .obj fields => .ok fields
  | _ => .error .attributeError

/-- `CloudflareURLScanResponse.json`: `self.data.json()`; raises a parse error
when the body is not valid JSON. -/
def CloudflareURLScanResponse.json (r : CloudflareURLScanResponse) : Except PyError Json :=
  match r.data.jsonBody with
  | some j => .ok j
  | none => .error .parseError

/-- `CloudflareURLScanResponse.success`: `self.json.get("success", False)`.
The parse failure of `.json` propagates (there is no `try`/`except` in the
source). -/
def CloudflareURLScanResponse.success (r : CloudflareURLScanResponse) : Except PyError Json :=
  match r.json with
  | .error e => .error e
  | .ok j =>
    match asDict j with
    | .error e => .error e
    | .ok d => .ok (dictGet d "success" (.bool false))

/-- `CloudflareURLScanResponse.__bool__`: `return self.success`. -/
def CloudflareURLScanResponse.toBool (r : CloudflareURLScanResponse) : Except PyError Json :=
  r.success

/-- `CloudflareURLScanResponse.result`: `self.json.get("result", {})`. -/
def CloudflareURLScanResponse.result (r : CloudflareURLScanResponse) : Except PyError Json :=
  match r.json with
  | .error e => .error e
  | .ok j =>
    match asDict j with
    | .error e => .error e
    | .ok d => .ok (dictGet d "result" (.obj []))

/-- `CloudflareURLScanResponse.uuid`:
`self.result.get("result", {}).get("uuid", "")`. -/
def CloudflareURLScanResponse.uuid (r : CloudflareURLScanResponse) : Except PyError Json :=
  match r.result with
  | .error e => .error e
  | .ok res =>
    match asDict res with
    | .error e => .error e
    | .ok d =>
      match asDict (dictGet d "result" (.obj [])) with
      | .error e => .error e
      | .ok d2 => .ok (dictGet d2 "uuid" (.str ""))

/-- A concrete response whose body is not valid JSON. -/
def nonJsonResponse : CloudflareURLScanResponse :=
  { data := { status_code := 502, text := "<html>bad gateway</html>", jsonBody := none } }

/-! ## The yarl collaborator: `URL.human_repr` -/

/-- Python `str.isprintable`, exact on the ASCII range and on the Latin-1
controls; outside those ranges we model the common case (the line and
paragraph separators are non-printable, other code points printable — the
full Unicode category table of CPython is not reproduced; every theorem
below applies this predicate to ASCII characters only). -/
def pyIsPrintable (c : Char) : Bool :=
  if c.toNat < 0x20 then false
  else if c.toNat < 0x7F then true
  else if c.toNat < 0xA1 then false
  else if c.toNat = 0x2028 ∨ c.toNat = 0x2029 then false
  else true

/-- Uppercase hexadecimal digit, as in Python's `%02X` format and
`urllib.parse.quote`. -/
def hexUpper (n : Nat) : Char :=
  if n < 10 then Nat.digitChar n else Char.ofNat (55 + n)

/-- `"%XX"`: one percent-encoded byte, uppercase hex. -/
def pctByte (b : Nat) : String :=
  String.mk ['%', hexUpper (b / 16), hexUpper (b % 16)]

/-- The UTF-8 bytes of a character. -/
def utf8Bytes (c : Char) : List Nat :=
  let n := c.toNat
  if n < 0x80 then [n]
  else if n < 0x800 then [0xC0 + n / 64, 0x80 + n % 64]
  else if n < 0x10000 then [0xE0 + n / 4096, 0x80 + n / 64 % 64, 0x80 + n % 64]
  else [0xF0 + n / 262144, 0x80 + n / 4096 % 64, 0x80 + n / 64 % 64, 0x80 + n % 64]

/-- `"".join(...)`-style concatenation. -/
def concatAll : List String → String
  | [] => ""
  | s :: ss => s ++ concatAll ss

/-- One character under yarl's `_human_quote(s, esc)` (as called by
`URL.human_repr`): characters in `"%" + esc` are percent-encoded, printable
characters are kept verbatim, and non-printable characters are UTF-8
percent-encoded via `urllib.parse.quote`.  The source's replacement passes
are per-character (each replaced character is a single character, and the
introduced `%` signs are not re-processed because `%` is replaced first), so
the whole transform factors through this map. -/
def humanQuoteChar (esc : List Char) (c : Char) : String :=
  if c ∈ esc then pctByte c.toNat
  else if pyIsPrintable c then String.mk [c]
  else concatAll ((utf8Bytes c).map pctByte)

def humanQuoteList (esc : List Char) : List Char → String
  | [] => ""
  | c :: cs => humanQuoteChar esc c ++ humanQuoteList esc cs

/-- yarl `_human_quote(s, esc)` with `"%"` prepended to the escape set. -/
def humanQuote (esc : List Char) (s : String) : String :=
  humanQuoteList esc s.data

/-- `"%" + "#&+;="`: the characters escaped in query keys and values by
`URL.human_repr`. -/
def queryEscapes : List Char := ['%', '#', '&', '+', ';', '=']

/-- `"%" + "#?"`: the characters escaped in the path by `URL.human_repr`. -/
def pathEscapes : List Char := ['%', '#', '?']

/-- `"&".join(...)`, as `URL.human_repr` joins the query pairs. -/
def joinAmp : List String → String
  | [] => ""
  | [s] => s
  | s :: ss => s ++ "&" ++ joinAmp ss

/-- The human-readable query string of `URL.human_repr`: every decoded key
and value is `_human_quote`d with escape set `"#&+;="` and the pairs are
joined with `=` and `&`. -/
def humanQueryString (pairs : List (String × String)) : String :=
  joinAmp (pairs.map (fun kv =>
    humanQuote queryEscapes kv.1 ++ "=" ++ humanQuote queryEscapes kv.2))

/-- `URL.human_repr()` for a URL built from scheme, host, path and decoded
query pairs: `urlunsplit` concatenates `scheme://host`, the `_human_quote`d
path, and — only when the query string is non-empty — `?` and the query
string.  The URLs this library builds carry no user, port or fragment.
`with_query` percent-encodes the pairs into the URL and `human_repr` renders
their decoded form, so the pairs reach this function unchanged. -/
def humanRepr (scheme host path : String) (pairs : List (String × String)) : String :=
  let qs := humanQueryString pairs
  scheme ++ "://" ++ host ++ humanQuote pathEscapes path ++
    (if qs.data = [] then "" else "?" ++ qs)

/-! ## `datetime.isoformat` and an ISO-8601 parser -/

/-- `datetime.datetime`: the fields rendered by `isoformat`.  The UTC offset
of a timezone-aware datetime is held in whole minutes (`None` for naive
datetimes). -/
structure PyDateTime where
  year : Nat
  month : Nat
  day : Nat
  hour : Nat
  minute : Nat
  second : Nat
  microsecond : Nat
  utcoffsetMinutes : Option Int
deriving DecidableEq

/-- Two-digit zero-padded rendering (`%02d` for values below 100). -/
def pad2 (n : Nat) : String := String.mk [Nat.digitChar (n / 10), Nat.digitChar (n % 10)]

/-- Four-digit zero-padded rendering (`%04d` for values below 10000). -/
def pad4 (n : Nat) : String := pad2 (n / 100) ++ pad2 (n % 100)

/-- Six-digit zero-padded rendering (`%06d` for values below 1000000). -/
def pad6 (n : Nat) : String := pad2 (n / 10000) ++ pad2 (n / 100 % 100) ++ pad2 (n % 100)

/-- `datetime.isoformat()`: `YYYY-MM-DDTHH:MM:SS`, then `.ffffff` exactly
when the microsecond field is non-zero, then `±HH:MM` exactly when the
datetime is timezone-aware. -/
def PyDateTime.isoformat (d : PyDateTime) : String :=
  pad4 d.year ++ "-" ++ pad2 d.month ++ "-" ++ pad2 d.day ++ "T" ++
  pad2 d.hour ++ ":" ++ pad2 d.minute ++ ":" ++ pad2 d.second ++
  (if d.microsecond = 0 then "" else "." ++ pad6 d.microsecond) ++
  (match d.utcoffsetMinutes with
   | none => ""
   | some off =>
     (if off < 0 then "-" else "+") ++
       pad2 (off.natAbs / 60) ++ ":" ++ pad2 (off.natAbs % 60))

/-- Numeric value of a decimal digit character. -/
def digitVal (c : Char) : Nat := c.toNat - 48

/-- Value of a two-digit group. -/
def twoDigits (a b : Char) : Nat := 10 * digitVal a + digitVal b

/-- Parse an optional `.ffffff` fractional-seconds group. -/
def parseFraction (l : List Char) : Option (Nat × List Char) :=
  if l.head? = some '.' then
    match l.tail with
    | a :: b :: c :: d :: e :: f :: rest =>
      if a.isDigit && b.isDigit && c.isDigit && d.isDigit && e.isDigit && f.isDigit then
        some (10000 * twoDigits a b + 100 * twoDigits c d + twoDigits e f, rest)
      else none
    | _ => none
  else some (0, l)

/-- Parse an optional trailing `±HH:MM` UTC-offset group. -/
def parseOffset : List Char → Option (Option Int)
  | [] => some none
  | sign :: rest =>
    match rest with
    | h1 :: h2 :: c :: m1 :: m2 :: [] =>
      if (sign == '+' || sign == '-') && c == ':' &&
          h1.isDigit && h2.isDigit && m1.isDigit && m2.isDigit then
        let mins : Int := 60 * twoDigits h1 h2 + twoDigits m1 m2
        some (some (if sign == '-' then -mins else mins))
      else none
    | _ => none

/-- An ISO-8601 parser covering the shapes `datetime.isoformat` emits:
fixed-width date and time fields, optional fractional seconds, optional
`±HH:MM` offset. -/
def parseIso8601 (s : String) : Option PyDateTime :=
  match s.data with
  | y1 :: y2 :: y3 :: y4 :: sep1 :: mo1 :: mo2 :: sep2 :: da1 :: da2 :: sepT ::
      h1 :: h2 :: c1 :: mi1 :: mi2 :: c2 :: s1 :: s2 :: rest =>
    if sep1 == '-' && sep2 == '-' && sepT == 'T' && c1 == ':' && c2 == ':' &&
        y1.isDigit && y2.isDigit && y3.isDigit && y4.isDigit &&
        mo1.isDigit && mo2.isDigit && da1.isDigit && da2.isDigit &&
        h1.isDigit && h2.isDigit && mi1.isDigit && mi2.isDigit &&
        s1.isDigit && s2.isDigit then
      match parseFraction rest with
      | none => none
      | some (micro, rest2) =>
        match parseOffset rest2 with
        | none => none
        | some off =>
          some { year := 100 * twoDigits y1 y2 + twoDigits y3 y4,
                 month := twoDigits mo1 mo2, day := twoDigits da1 da2,
                 hour := twoDigits h1 h2, minute := twoDigits mi1 mi2,
                 second := twoDigits s1 s2, microsecond := micro,
                 utcoffsetMinutes := off }
    else none
  | _ => none

/-- The field bounds `datetime.datetime` guarantees; only the digit widths
and the offset bound (`|offset| < 24h`) are needed here. -/
def PyDateTime.InRange (d : PyDateTime) : Prop :=
  d.year < 10000 ∧ d.month < 100 ∧ d.day < 100 ∧ d.hour < 100 ∧
  d.minute < 100 ∧ d.second < 100 ∧ d.microsecond < 1000000 ∧
  (match d.utcoffsetMinutes with
   | none => True
   | some off => off.natAbs < 1440)

/-! ## `builder.py` -/

/-- Python `"{}".format(x)` where `x` may be `None`: `str(None)` is the
four-character string `None`. -/
def formatOpt : Option String → String
  | none => "None"
  | some s => s

/-- `UrlBuilder`: stores the account identifier given at construction, which
the `Client` may pass as `None`; `__init__` sets `scheme`, `host` and
`base_path` to fixed constants. -/
structure UrlBuilder where
  cloudflare_account_id : Option String

def UrlBuilder.scheme (_ : UrlBuilder) : String := "https"

def UrlBuilder.host (_ : UrlBuilder) : String := "api.cloudflare.com"

/-- `self.base_path.format(self.cloudflare_account_id)` with
`base_path = "/client/v4/accounts/{}/urlscanner/scan"`. -/
def UrlBuilder.basePathFormatted (b : UrlBuilder) : String :=
  "/client/v4/accounts/" ++ formatOpt b.cloudflare_account_id ++ "/urlscanner/scan"

/-- `UrlBuilder.build_scan_url`: `URL.build(scheme, host, path).human_repr()`. -/
def UrlBuilder.build_scan_url (b : UrlBuilder) : String :=
  humanRepr b.scheme b.host b.basePathFormatted []

/-- The keyword arguments of `UrlBuilder.build_get_scan_url`, all of which
default to `None`. -/
structure SearchArgs where
  account_scans : Option String := none
  date_end : Option PyDateTime := none
  date_start : Option PyDateTime := none
  hostname : Option String := none
  ip : Option String := none
  limit : Option Int := none
  next_cursor : Option String := none
  page_hostname : Option String := none
  page_ip : Option String := none
  page_path : Option String := none
  page_url : Option String := none
  path : Option String := none
  uuid : Option String := none
  url : Option String := none

/-- The `params` dict of `build_get_scan_url`, in insertion order: the dates
are rendered with `isoformat` (a `datetime` is always truthy, so `if
date_end:` fires exactly when the argument is present), the integer `limit`
is rendered by `str` inside `with_query`, and the `uuid` argument is stored
under the upstream key `scanId`. -/
def searchParams (a : SearchArgs) : List (String × Option String) :=
  [("account_scans", a.account_scans),
   ("date_end", a.date_end.map PyDateTime.isoformat),
   ("date_start", a.date_start.map PyDateTime.isoformat),
   ("hostname", a.hostname),
   ("ip", a.ip),
   ("limit", a.limit.map toString),
   ("next_cursor", a.next_cursor),
   ("page_hostname", a.page_hostname),
   ("page_ip", a.page_ip),
   ("page_path", a.page_path),
   ("page_url", a.page_url),
   ("path", a.path),
   ("scanId", a.uuid),
   ("url", a.url)]

/-- `{k: v for k, v in params.items() if v is not None}`: keep, in order,
exactly the entries whose value is present. -/
def dropNone : List (String × Option String) → List (String × String)
  | [] => []
  | (_, none) :: rest => dropNone rest
  | (k, some v) :: rest => (k, v) :: dropNone rest

/-- `filtered_params` of `build_get_scan_url`. -/
def filteredParams (a : SearchArgs) : List (String × String) :=
  dropNone (searchParams a)

/-- `UrlBuilder.build_get_scan_url`:
`URL.build(scheme, host, path).with_query(filtered_params).human_repr()`. -/
def UrlBuilder.build_get_scan_url (b : UrlBuilder) (a : SearchArgs) : String :=
  humanRepr b.scheme b.host b.basePathFormatted (filteredParams a)

/-- The fixed part of every URL the builder produces: scheme, host and
human-quoted path. -/
def UrlBuilder.urlBase (b : UrlBuilder) : String :=
  b.scheme ++ "://" ++ b.host ++ humanQuote pathEscapes b.basePathFormatted

/-- `UrlBuilder.build_search_url`:
`URL.build(scheme, host, path, query_string=f"page_hostname={endpoint}").human_repr()`.
The raw query string is percent-encoded by `URL.build` and `human_repr`
re-renders its decoded pairs; for endpoint values free of the query
metacharacters `&;=+%#` (the hostnames this parameter carries) that round
trip is the single decoded pair `("page_hostname", endpoint)`. -/
def UrlBuilder.build_search_url (b : UrlBuilder) (endpoint : String) : String :=
  humanRepr b.scheme b.host b.basePathFormatted [("page_hostname", endpoint)]

/-- `UrlBuilder.build_get_screenshot_url`: path
`f"{base_path.format(account)}/{uuid}/screenshot"`, query
`query_string=f"resolution={resolution}"` (the same query round-trip note as
`build_search_url` applies; `resolution` is one of the literals
`desktop`/`mobile`/`tablet`). -/
def UrlBuilder.build_get_screenshot_url (b : UrlBuilder) (uuid resolution : String) : String :=
  humanRepr b.scheme b.host (b.basePathFormatted ++ "/" ++ uuid ++ "/screenshot")
    [("resolution", resolution)]

/-- `UrlBuilder.build_get_har_url`: path
`f"{base_path.format(account)}/{uuid}/har"`, no query string. -/
def UrlBuilder.build_get_har_url (b : UrlBuilder) (uuid : String) : String :=
  humanRepr b.scheme b.host (b.basePathFormatted ++ "/" ++ uuid ++ "/har") []

/-! ## `client.py` -/

/-- The process environment at construction time. -/
structure Env where
  CLOUDFLARE_API_KEY : Option String
  CLOUDFLARE_ACCOUNT_ID : Option String

/-- The credential-relevant state of a constructed `Client`. -/
structure Client where
  cloudflare_api_key : Option String
  cloudflare_account_id : Option String
  url_builder : UrlBuilder

/-- `Client.__init__` (the `AsyncClient` constructor is line-for-line
identical): the conditional environment fallback
`if cloudflare_api_key is None: self.cloudflare_api_key = os.getenv(...)` is
immediately followed by the unconditional assignment
`self.cloudflare_api_key = cloudflare_api_key`, which overwrites it — and
likewise for the account id.  The stored credentials therefore always equal
the constructor arguments, and the possibly-`None` account id is handed to
`UrlBuilder` without any validation. -/
def Client.init (env : Env)
    (cloudflare_api_key cloudflare_account_id : Option String) : Client :=
  let _api_key_from_env : Option String :=
    if cloudflare_api_key.isNone then env.CLOUDFLARE_API_KEY else none
  let _account_id_from_env : Option String :=
    if cloudflare_account_id.isNone then env.CLOUDFLARE_ACCOUNT_ID else none
  { cloudflare_api_key := cloudflare_api_key,
    cloudflare_account_id := cloudflare_account_id,
    url_builder := { cloudflare_account_id := cloudflare_account_id } }

/-! ## `helpers.py` -/

/-- A Python value that is either a string or `None`, as a JSON value. -/
def optStrToJson : Option String → Json
  | none => Json.null
  | some s => Json.str s

/-- `helpers.create_request_body`: starts from an empty dict, always sets
`url`, and adds each optional key only when the argument `is not None`; the
custom user agent is nested under `customHeaders` at the key `user-agent`. -/
def create_request_body (url : Option String)
    (screenshots_resolutions : Option (List String))
    (custom_user_agent : Option Json) (visibility : Option String) :
    List (String × Json) :=
  [("url", optStrToJson url)] ++
  (match screenshots_resolutions with
   | none => []
   | some rs => [("screenshotsResolutions", Json.arr (rs.map Json.str))]) ++
  (match custom_user_agent with
   | none => []
   | some ua => [("customHeaders", Json.obj [("user-agent", ua)])]) ++
  (match visibility with
   | none => []
   | some v => [("visibility", Json.str v)])

end CloudflareScan

namespace CloudflareScan

/-! ## Helper lemmas -/

lemma digitChar_isDigit {n : Nat} (h : n < 10) : (Nat.digitChar n).isDigit = true := by
  interval_cases n <;> decide

lemma digitVal_digitChar {n : Nat} (h : n < 10) : digitVal (Nat.digitChar n) = n := by
  interval_cases n <;> decide

lemma twoDigits_pad2 {n : Nat} (h : n < 100) :
    twoDigits (Nat.digitChar (n / 10)) (Nat.digitChar (n % 10)) = n := by
  unfold twoDigits
  rw [digitVal_digitChar (by omega), digitVal_digitChar (by omega)]
  omega

lemma dash_data : ("-" : String).data = ['-'] := rfl

lemma colon_data : (":" : String).data = [':'] := rfl

lemma tee_data : ("T" : String).data = ['T'] := rfl

lemma dot_data : ("." : String).data = ['.'] := rfl

lemma plus_data : ("+" : String).data = ['+'] := rfl

lemma empty_data : ("" : String).data = [] := rfl

lemma humanQuoteList_id (esc : List Char) (l : List Char)
    (h : ∀ c ∈ l, c ∉ esc ∧ pyIsPrintable c) : humanQuoteList esc l = String.mk l := by
  induction l with
  | nil => rfl
  | cons c cs ih =>
    obtain ⟨hc, hcs⟩ := List.forall_mem_cons.mp h
    show humanQuoteChar esc c ++ humanQuoteList esc cs = String.mk (c :: cs)
    rw [ih hcs]
    unfold humanQuoteChar
    rw [if_neg hc.1, if_pos hc.2]
    rfl

lemma humanQuote_id (esc : List Char) (s : String)
    (h : ∀ c ∈ s.data, c ∉ esc ∧ pyIsPrintable c) : humanQuote esc s = s := by
  unfold humanQuote
  rw [humanQuoteList_id esc s.data h]

lemma humanQuoteList_append (esc : List Char) (l1 l2 : List Char) :
    humanQuoteList esc (l1 ++ l2) = humanQuoteList esc l1 ++ humanQuoteList esc l2 := by
  induction l1 with
  | nil =>
    show humanQuoteList esc l2 = "" ++ humanQuoteList esc l2
    rw [String.empty_append]
  | cons c cs ih =>
    show humanQuoteChar esc c ++ humanQuoteList esc (cs ++ l2) = _
    rw [ih]
    show _ = humanQuoteChar esc c ++ humanQuoteList esc cs ++ humanQuoteList esc l2
    rw [String.append_assoc]

lemma humanQuote_append (esc : List Char) (s t : String) :
    humanQuote esc (s ++ t) = humanQuote esc s ++ humanQuote esc t := by
  unfold humanQuote
  rw [String.data_append, humanQuoteList_append]

lemma humanRepr_eq_prefix' (scheme host path front : String)
    (pairs : List (String × String))
    (hfront : scheme ++ "://" ++ host ++ humanQuote pathEscapes path = front) :
    ∃ rest, humanRepr scheme host path pairs = front ++ rest := by
  refine ⟨(if (humanQueryString pairs).data = [] then ""
    else "?" ++ humanQueryString pairs), ?_⟩
  show scheme ++ "://" ++ host ++ humanQuote pathEscapes path ++ _ = _
  rw [hfront]

lemma humanRepr_eq_prefix (scheme host path1 path2 front : String)
    (pairs : List (String × String))
    (hfront : scheme ++ "://" ++ host ++ humanQuote pathEscapes path1 = front) :
    ∃ rest, humanRepr scheme host (path1 ++ path2) pairs = front ++ rest := by
  refine ⟨humanQuote pathEscapes path2 ++
    (if (humanQueryString pairs).data = [] then ""
      else "?" ++ humanQueryString pairs), ?_⟩
  show scheme ++ "://" ++ host ++ humanQuote pathEscapes (path1 ++ path2) ++ _ = _
  rw [humanQuote_append, ← hfront]
  simp [String.append_assoc]

lemma mem_dropNone {l : List (String × Option String)} {k v : String}
    (h : (k, some v) ∈ l) : (k, v) ∈ dropNone l := by
  induction l with
  | nil => cases h
  | cons p rest ih =>
    rcases p with ⟨k', v'⟩
    rcases List.mem_cons.mp h with heq | hmem
    · cases heq
      exact List.mem_cons_self _ _
    · rcases v' with _ | w
      · exact ih hmem
      · exact List.mem_cons_of_mem _ (ih hmem)

/-- The ISO-8601 round trip: parsing back the `isoformat` rendering of any
in-range datetime recovers the datetime, including time-of-day and, when
present, the timezone offset. -/
lemma parseIso8601_isoformat (d : PyDateTime) (hd : d.InRange) :
    parseIso8601 d.isoformat = some d := by
  obtain ⟨y, mo, da, hh, mi, ss, mc, off⟩ := d
  obtain ⟨hy, hmo, hda, hhh, hmi, hss, hmc, hoff⟩ := hd
  dsimp only at hy hmo hda hhh hmi hss hmc hoff
  have e01 : ((y / 100 / 10).digitChar).isDigit = true := digitChar_isDigit (by omega)
  have e02 : ((y / 100 % 10).digitChar).isDigit = true := digitChar_isDigit (by omega)
  have e03 : ((y % 100 / 10).digitChar).isDigit = true := digitChar_isDigit (by omega)
  have e04 : ((y % 100 % 10).digitChar).isDigit = true := digitChar_isDigit (by omega)
  have e05 : ((mo / 10).digitChar).isDigit = true := digitChar_isDigit (by omega)
  have e06 : ((mo % 10).digitChar).isDigit = true := digitChar_isDigit (by omega)
  have e07 : ((da / 10).digitChar).isDigit = true := digitChar_isDigit (by omega)
  have e08 : ((da % 10).digitChar).isDigit = true := digitChar_isDigit (by omega)
  have e09 : ((hh / 10).digitChar).isDigit = true := digitChar_isDigit (by omega)
  have e10 : ((hh % 10).digitChar).isDigit = true := digitChar_isDigit (by omega)
  have e11 : ((mi / 10).digitChar).isDigit = true := digitChar_isDigit (by omega)
  have e12 : ((mi % 10).digitChar).isDigit = true := digitChar_isDigit (by omega)
  have e13 : ((ss / 10).digitChar).isDigit = true := digitChar_isDigit (by omega)
  have e14 : ((ss % 10).digitChar).isDigit = true := digitChar_isDigit (by omega)
  have e15 : ((mc / 10000 / 10).digitChar).isDigit = true := digitChar_isDigit (by omega)
  have e16 : ((mc / 10000 % 10).digitChar).isDigit = true := digitChar_isDigit (by omega)
  have e17 : ((mc / 100 % 100 / 10).digitChar).isDigit = true := digitChar_isDigit (by omega)
  have e18 : ((mc / 100 % 100 % 10).digitChar).isDigit = true := digitChar_isDigit (by omega)
  have e19 : ((mc % 100 / 10).digitChar).isDigit = true := digitChar_isDigit (by omega)
  have e20 : ((mc % 100 % 10).digitChar).isDigit = true := digitChar_isDigit (by omega)
  have t1 : twoDigits (y / 100 / 10).digitChar (y / 100 % 10).digitChar = y / 100 :=
    twoDigits_pad2 (by omega)
  have t2 : twoDigits (y % 100 / 10).digitChar (y % 100 % 10).digitChar = y % 100 :=
    twoDigits_pad2 (by omega)
  have t3 : twoDigits (mo / 10).digitChar (mo % 10).digitChar = mo := twoDigits_pad2 hmo
  have t4 : twoDigits (da / 10).digitChar (da % 10).digitChar = da := twoDigits_pad2 hda
  have t5 : twoDigits (hh / 10).digitChar (hh % 10).digitChar = hh := twoDigits_pad2 hhh
  have t6 : twoDigits (mi / 10).digitChar (mi % 10).digitChar = mi := twoDigits_pad2 hmi
  have t7 : twoDigits (ss / 10).digitChar (ss % 10).digitChar = ss := twoDigits_pad2 hss
  have t8 : twoDigits (mc / 10000 / 10).digitChar (mc / 10000 % 10).digitChar = mc / 10000 :=
    twoDigits_pad2 (by omega)
  have t9 : twoDigits (mc / 100 % 100 / 10).digitChar (mc / 100 % 100 % 10).digitChar =
      mc / 100 % 100 := twoDigits_pad2 (by omega)
  have t10 : twoDigits (mc % 100 / 10).digitChar (mc % 100 % 10).digitChar = mc % 100 :=
    twoDigits_pad2 (by omega)
  unfold parseIso8601 PyDateTime.isoformat
  rcases off with _ | o
  · by_cases h0 : mc = 0 <;>
      simp only [String.data_append, pad4, pad2, pad6, dash_data, colon_data, tee_data,
        dot_data, plus_data, empty_data, List.cons_append, List.nil_append,
        List.append_assoc, List.append_nil, h0, reduceIte, if_true, if_false,
        Bool.false_eq_true, reduceCtorEq, eq_self_iff_true, and_true, true_and,
        e01, e02, e03, e04, e05, e06, e07, e08, e09, e10, e11, e12, e13, e14,
        e15, e16, e17, e18, e19, e20,
        Bool.and_self, Bool.and_true, Bool.true_and, beq_self_eq_true,
        parseFraction, parseOffset, List.head?, List.tail,
        Option.some.injEq, Char.reduceEq, Char.reduceBEq,
        Bool.true_or, Bool.false_or, Bool.or_true, Bool.or_false,
        t1, t2, t3, t4, t5, t6, t7, t8, t9, t10, PyDateTime.mk.injEq] <;>
      omega
  · dsimp only at hoff
    have f1 : ((o.natAbs / 60 / 10).digitChar).isDigit = true := digitChar_isDigit (by omega)
    have f2 : ((o.natAbs / 60 % 10).digitChar).isDigit = true := digitChar_isDigit (by omega)
    have f3 : ((o.natAbs % 60 / 10).digitChar).isDigit = true := digitChar_isDigit (by omega)
    have f4 : ((o.natAbs % 60 % 10).digitChar).isDigit = true := digitChar_isDigit (by omega)
    have g1 : twoDigits (o.natAbs / 60 / 10).digitChar (o.natAbs / 60 % 10).digitChar =
        o.natAbs / 60 := twoDigits_pad2 (by omega)
    have g2 : twoDigits (o.natAbs % 60 / 10).digitChar (o.natAbs % 60 % 10).digitChar =
        o.natAbs % 60 := twoDigits_pad2 (by omega)
    by_cases h0 : mc = 0 <;> by_cases hneg : o < 0 <;>
      simp only [String.data_append, pad4, pad2, pad6, dash_data, colon_data, tee_data,
        dot_data, plus_data, empty_data, List.cons_append, List.nil_append,
        List.append_assoc, List.append_nil, h0, hneg, reduceIte, if_true, if_false,
        Bool.false_eq_true, reduceCtorEq, eq_self_iff_true, and_true, true_and,
        e01, e02, e03, e04, e05, e06, e07, e08, e09, e10, e11, e12, e13, e14,
        e15, e16, e17, e18, e19, e20, f1, f2, f3, f4,
        Bool.and_self, Bool.and_true, Bool.true_and, beq_self_eq_true,
        parseFraction, parseOffset, List.head?, List.tail,
        Option.some.injEq, Char.reduceEq, Char.reduceBEq,
        Bool.true_or, Bool.false_or, Bool.or_true, Bool.or_false,
        t1, t2, t3, t4, t5, t6, t7, t8, t9, t10, g1, g2, PyDateTime.mk.injEq] <;>
      omega

/-! ### Single-present-filter URL shapes, one lemma per keyword argument -/

lemma url_single_account_scans (b : UrlBuilder) (v : String) :
    filteredParams { account_scans := some v } = [("account_scans", v)] ∧
    b.build_get_scan_url { account_scans := some v } =
      b.urlBase ++ "?" ++ ("account_scans=" ++ humanQuote queryEscapes v) := by
  have hk : humanQuote queryEscapes "account_scans" = "account_scans" := by decide
  exact ⟨rfl, by simp [UrlBuilder.build_get_scan_url, filteredParams, searchParams,
    dropNone, humanRepr, humanQueryString, joinAmp, hk, UrlBuilder.urlBase,
    String.append_assoc]⟩

lemma url_single_hostname (b : UrlBuilder) (v : String) :
    filteredParams { hostname := some v } = [("hostname", v)] ∧
    b.build_get_scan_url { hostname := some v } =
      b.urlBase ++ "?" ++ ("hostname=" ++ humanQuote queryEscapes v) := by
  have hk : humanQuote queryEscapes "hostname" = "hostname" := by decide
  exact ⟨rfl, by simp [UrlBuilder.build_get_scan_url, filteredParams, searchParams,
    dropNone, humanRepr, humanQueryString, joinAmp, hk, UrlBuilder.urlBase,
    String.append_assoc]⟩

lemma url_single_ip (b : UrlBuilder) (v : String) :
    filteredParams { ip := some v } = [("ip", v)] ∧
    b.build_get_scan_url { ip := some v } =
      b.urlBase ++ "?" ++ ("ip=" ++ humanQuote queryEscapes v) := by
  have hk : humanQuote queryEscapes "ip" = "ip" := by decide
  exact ⟨rfl, by simp [UrlBuilder.build_get_scan_url, filteredParams, searchParams,
    dropNone, humanRepr, humanQueryString, joinAmp, hk, UrlBuilder.urlBase,
    String.append_assoc]⟩

lemma url_single_next_cursor (b : UrlBuilder) (v : String) :
    filteredParams { next_cursor := some v } = [("next_cursor", v)] ∧
    b.build_get_scan_url { next_cursor := some v } =
      b.urlBase ++ "?" ++ ("next_cursor=" ++ humanQuote queryEscapes v) := by
  have hk : humanQuote queryEscapes "next_cursor" = "next_cursor" := by decide
  exact ⟨rfl, by simp [UrlBuilder.build_get_scan_url, filteredParams, searchParams,
    dropNone, humanRepr, humanQueryString, joinAmp, hk, UrlBuilder.urlBase,
    String.append_assoc]⟩

lemma url_single_page_hostname (b : UrlBuilder) (v : String) :
    filteredParams { page_hostname := some v } = [("page_hostname", v)] ∧
    b.build_get_scan_url { page_hostname := some v } =
      b.urlBase ++ "?" ++ ("page_hostname=" ++ humanQuote queryEscapes v) := by
  have hk : humanQuote queryEscapes "page_hostname" = "page_hostname" := by decide
  exact ⟨rfl, by simp [UrlBuilder.build_get_scan_url, filteredParams, searchParams,
    dropNone, humanRepr, humanQueryString, joinAmp, hk, UrlBuilder.urlBase,
    String.append_assoc]⟩

lemma url_single_page_ip (b : UrlBuilder) (v : String) :
    filteredParams { page_ip := some v } = [("page_ip", v)] ∧
    b.build_get_scan_url { page_ip := some v } =
      b.urlBase ++ "?" ++ ("page_ip=" ++ humanQuote queryEscapes v) := by
  have hk : humanQuote queryEscapes "page_ip" = "page_ip" := by decide
  exact ⟨rfl, by simp [UrlBuilder.build_get_scan_url, filteredParams, searchParams,
    dropNone, humanRepr, humanQueryString, joinAmp, hk, UrlBuilder.urlBase,
    String.append_assoc]⟩

lemma url_single_page_path (b : UrlBuilder) (v : String) :
    filteredParams { page_path := some v } = [("page_path", v)] ∧
    b.build_get_scan_url { page_path := some v } =
      b.urlBase ++ "?" ++ ("page_path=" ++ humanQuote queryEscapes v) := by
  have hk : humanQuote queryEscapes "page_path" = "page_path" := by decide
  exact ⟨rfl, by simp [UrlBuilder.build_get_scan_url, filteredParams, searchParams,
    dropNone, humanRepr, humanQueryString, joinAmp, hk, UrlBuilder.urlBase,
    String.append_assoc]⟩

lemma url_single_page_url (b : UrlBuilder) (v : String) :
    filteredParams { page_url := some v } = [("page_url", v)] ∧
    b.build_get_scan_url { page_url := some v } =
      b.urlBase ++ "?" ++ ("page_url=" ++ humanQuote queryEscapes v) := by
  have hk : humanQuote queryEscapes "page_url" = "page_url" := by decide
  exact ⟨rfl, by simp [UrlBuilder.build_get_scan_url, filteredParams, searchParams,
    dropNone, humanRepr, humanQueryString, joinAmp, hk, UrlBuilder.urlBase,
    String.append_assoc]⟩

lemma url_single_path (b : UrlBuilder) (v : String) :
    filteredParams { path := some v } = [("path", v)] ∧
    b.build_get_scan_url { path := some v } =
      b.urlBase ++ "?" ++ ("path=" ++ humanQuote queryEscapes v) := by
  have hk : humanQuote queryEscapes "path" = "path" := by decide
  exact ⟨rfl, by simp [UrlBuilder.build_get_scan_url, filteredParams, searchParams,
    dropNone, humanRepr, humanQueryString, joinAmp, hk, UrlBuilder.urlBase,
    String.append_assoc]⟩

lemma url_single_url (b : UrlBuilder) (v : String) :
    filteredParams { url := some v } = [("url", v)] ∧
    b.build_get_scan_url { url := some v } =
      b.urlBase ++ "?" ++ ("url=" ++ humanQuote queryEscapes v) := by
  have hk : humanQuote queryEscapes "url" = "url" := by decide
  exact ⟨rfl, by simp [UrlBuilder.build_get_scan_url, filteredParams, searchParams,
    dropNone, humanRepr, humanQueryString, joinAmp, hk, UrlBuilder.urlBase,
    String.append_assoc]⟩

lemma url_single_uuid (b : UrlBuilder) (v : String) :
    filteredParams { uuid := some v } = [("scanId", v)] ∧
    b.build_get_scan_url { uuid := some v } =
      b.urlBase ++ "?" ++ ("scanId=" ++ humanQuote queryEscapes v) := by
  have hk : humanQuote queryEscapes "scanId" = "scanId" := by decide
  exact ⟨rfl, by simp [UrlBuilder.build_get_scan_url, filteredParams, searchParams,
    dropNone, humanRepr, humanQueryString, joinAmp, hk, UrlBuilder.urlBase,
    String.append_assoc]⟩

lemma url_single_limit (b : UrlBuilder) (n : Int) :
    filteredParams { limit := some n } = [("limit", toString n)] ∧
    b.build_get_scan_url { limit := some n } =
      b.urlBase ++ "?" ++ ("limit=" ++ humanQuote queryEscapes (toString n)) := by
  have hk : humanQuote queryEscapes "limit" = "limit" := by decide
  exact ⟨rfl, by simp [UrlBuilder.build_get_scan_url, filteredParams, searchParams,
    dropNone, humanRepr, humanQueryString, joinAmp, hk, UrlBuilder.urlBase,
    String.append_assoc]⟩

lemma url_single_date_end (b : UrlBuilder) (d : PyDateTime) :
    filteredParams { date_end := some d } = [("date_end", d.isoformat)] ∧
    b.build_get_scan_url { date_end := some d } =
      b.urlBase ++ "?" ++ ("date_end=" ++ humanQuote queryEscapes d.isoformat) := by
  have hk : humanQuote queryEscapes "date_end" = "date_end" := by decide
  exact ⟨rfl, by simp [UrlBuilder.build_get_scan_url, filteredParams, searchParams,
    dropNone, humanRepr, humanQueryString, joinAmp, hk, UrlBuilder.urlBase,
    String.append_assoc]⟩

lemma url_single_date_start (b : UrlBuilder) (d : PyDateTime) :
    filteredParams { date_start := some d } = [("date_start", d.isoformat)] ∧
    b.build_get_scan_url { date_start := some d } =
      b.urlBase ++ "?" ++ ("date_start=" ++ humanQuote queryEscapes d.isoformat) := by
  have hk : humanQuote queryEscapes "date_start" = "date_start" := by decide
  exact ⟨rfl, by simp [UrlBuilder.build_get_scan_url, filteredParams, searchParams,
    dropNone, humanRepr, humanQueryString, joinAmp, hk, UrlBuilder.urlBase,
    String.append_assoc]⟩


/-- C1 (counterexample): on a response whose body is not valid JSON,
`.success` does **not** return `False` — it raises the parse error, exactly
like `.json`. -/
theorem success_raises_on_non_json_body :
    nonJsonResponse.success = Except.error PyError.parseError ∧
    (Except.error PyError.parseError : Except PyError Json) ≠
      Except.ok (Json.bool false) := by
  constructor
  · rfl
  · intro h
    exact Except.noConfusion h

/-- C1 (amended): for every response whose body is not valid JSON, both
`.success` and `.json` raise the parse error; `.success` propagates the
failure rather than swallowing it and returning `False`. -/
theorem success_and_json_raise_on_non_json (r : CloudflareURLScanResponse)
    (h : r.data.jsonBody = none) :
    r.success = Except.error PyError.parseError ∧
    r.json = Except.error PyError.parseError := by
  have hj : r.json = Except.error PyError.parseError := by
    simp [CloudflareURLScanResponse.json, h]
  refine ⟨?_, hj⟩
  simp [CloudflareURLScanResponse.success, hj]

/-- C1 (witness for the amended theorem), at the concrete non-JSON response. -/
theorem success_and_json_raise_on_non_json_witness :
    nonJsonResponse.success = Except.error PyError.parseError ∧
    nonJsonResponse.json = Except.error PyError.parseError :=
  success_and_json_raise_on_non_json nonJsonResponse rfl

/-- C10: `__bool__` returns exactly `self.success`; consequently, on a body
that is not valid JSON, truthiness testing raises the parse error instead of
returning `false`. -/
theorem toBool_eq_success (r : CloudflareURLScanResponse) :
    r.toBool = r.success ∧
    (r.data.jsonBody = none → r.toBool = Except.error PyError.parseError) := by
  refine ⟨rfl, fun h => ?_⟩
  show r.success = _
  simp [CloudflareURLScanResponse.success, CloudflareURLScanResponse.json, h]

/-- C10 (witness): `__bool__` on the concrete non-JSON response. -/
theorem toBool_eq_success_witness :
    nonJsonResponse.toBool = nonJsonResponse.success ∧
    (nonJsonResponse.data.jsonBody = none →
      nonJsonResponse.toBool = Except.error PyError.parseError) :=
  toBool_eq_success nonJsonResponse

/-- C8: for a response whose body parses as a JSON object, `.uuid` returns
the string at `json.result.result.uuid` when both nesting levels and the
`uuid` key are present, and the empty string when any level of the nesting
is absent. -/
theorem uuid_reads_nested_result (r : CloudflareURLScanResponse)
    (fields : List (String × Json)) (h : r.data.jsonBody = some (.obj fields)) :
    (∀ f2 f3 u, lookup fields "result" = some (.obj f2) →
      lookup f2 "result" = some (.obj f3) →
      lookup f3 "uuid" = some (.str u) →
      r.uuid = .ok (.str u)) ∧
    (lookup fields "result" = none → r.uuid = .ok (.str "")) ∧
    (∀ f2, lookup fields "result" = some (.obj f2) →
      lookup f2 "result" = none → r.uuid = .ok (.str "")) ∧
    (∀ f2 f3, lookup fields "result" = some (.obj f2) →
      lookup f2 "result" = some (.obj f3) →
      lookup f3 "uuid" = none → r.uuid = .ok (.str "")) := by
  refine ⟨?_, ?_, ?_, ?_⟩ <;> intros <;>
    simp_all [CloudflareURLScanResponse.uuid, CloudflareURLScanResponse.result,
      CloudflareURLScanResponse.json, dictGet, asDict, lookup, List.find?]

/-- C8 (witness): the two concrete bodies named by the specification. -/
theorem uuid_reads_nested_result_witness :
    (CloudflareURLScanResponse.mk ⟨200, "", some (.obj
        [("success", .bool true),
         ("result", .obj [("result", .obj [("uuid", .str "xyz")])])])⟩).uuid =
      .ok (.str "xyz") ∧
    (CloudflareURLScanResponse.mk ⟨200, "", some (.obj
        [("success", .bool true), ("result", .obj [])])⟩).uuid =
      .ok (.str "") := by
  constructor
  · exact (uuid_reads_nested_result _
      [("success", .bool true),
       ("result", .obj [("result", .obj [("uuid", .str "xyz")])])] rfl).1
      [("result", .obj [("uuid", .str "xyz")])] [("uuid", .str "xyz")] "xyz" rfl rfl rfl
  · exact (uuid_reads_nested_result _
      [("success", .bool true), ("result", .obj [])] rfl).2.2.1 [] rfl rfl

/-- C2 (code bug): constructed with both credential arguments `None` while
both environment variables are set, the client stores `None` for both
credentials — the environment fallback assignments are immediately
overwritten by the constructor arguments, contrary to the constructor's own
docstring. -/
theorem client_init_ignores_env :
    (Client.init ⟨some "env-key", some "env-acct"⟩ none none).cloudflare_api_key = none ∧
    (Client.init ⟨some "env-key", some "env-acct"⟩ none none).cloudflare_account_id = none ∧
    (none : Option String) ≠ some "env-key" ∧
    (none : Option String) ≠ some "env-acct" := by
  refine ⟨rfl, rfl, ?_, ?_⟩ <;> intro h <;> exact Option.noConfusion h

/-- C3 (counterexample): a `Client` constructed with account id `None` hands
`None` to its `UrlBuilder` — construction performs no validation at all. -/
theorem urlbuilder_receives_none_account :
    (Client.init ⟨some "env-key", some "env-acct"⟩ (some "key")
        none).url_builder.cloudflare_account_id = none := rfl

/-- C3 (amended): the `UrlBuilder` receives exactly the
`cloudflare_account_id` constructor argument, unvalidated; when that argument
is `None`, every URL produced by any builder method — scan submission,
search-with-filters, legacy search, screenshot and HAR — embeds the string
`None` (Python's rendering of the value) in its path. -/
theorem urlbuilder_account_unvalidated (env : Env) (key acct : Option String) :
    (Client.init env key acct).url_builder.cloudflare_account_id = acct ∧
    (Client.init env key none).url_builder.build_scan_url =
      "https://api.cloudflare.com/client/v4/accounts/None/urlscanner/scan" ∧
    (∀ a : SearchArgs, ∃ rest,
      (Client.init env key none).url_builder.build_get_scan_url a =
        "https://api.cloudflare.com/client/v4/accounts/None/urlscanner/scan" ++ rest) ∧
    (∀ endpoint : String, ∃ rest,
      (Client.init env key none).url_builder.build_search_url endpoint =
        "https://api.cloudflare.com/client/v4/accounts/None/urlscanner/scan" ++ rest) ∧
    (∀ uuid resolution : String, ∃ rest,
      (Client.init env key none).url_builder.build_get_screenshot_url uuid resolution =
        "https://api.cloudflare.com/client/v4/accounts/None/urlscanner/scan/" ++ rest) ∧
    (∀ uuid : String, ∃ rest,
      (Client.init env key none).url_builder.build_get_har_url uuid =
        "https://api.cloudflare.com/client/v4/accounts/None/urlscanner/scan/" ++ rest) := by
  refine ⟨rfl, ?_, ?_, ?_, ?_, ?_⟩
  · show (UrlBuilder.mk none).build_scan_url = _
    decide
  · intro a
    show ∃ rest, humanRepr "https" "api.cloudflare.com"
      (UrlBuilder.mk none).basePathFormatted (filteredParams a) = _
    exact humanRepr_eq_prefix' _ _ _ _ _ (by decide)
  · intro endpoint
    show ∃ rest, humanRepr "https" "api.cloudflare.com"
      (UrlBuilder.mk none).basePathFormatted [("page_hostname", endpoint)] = _
    exact humanRepr_eq_prefix' _ _ _ _ _ (by decide)
  · intro u res
    show ∃ rest, humanRepr "https" "api.cloudflare.com"
      ((UrlBuilder.mk none).basePathFormatted ++ "/" ++ u ++ "/screenshot")
      [("resolution", res)] = _
    rw [String.append_assoc]
    exact humanRepr_eq_prefix _ _ _ _ _ _ (by decide)
  · intro u
    show ∃ rest, humanRepr "https" "api.cloudflare.com"
      ((UrlBuilder.mk none).basePathFormatted ++ "/" ++ u ++ "/har") [] = _
    rw [String.append_assoc]
    exact humanRepr_eq_prefix _ _ _ _ _ _ (by decide)

/-- C9: `create_request_body` always emits `url`; each optional key is
present exactly when its argument is present (absent options contribute no
key, never a `null`); the custom user agent is nested under `customHeaders`
at the key `user-agent`; with every optional argument absent the body is
exactly `{"url": u}`. -/
theorem create_request_body_keys (u : String) (sr : Option (List String))
    (ua : Option Json) (vis : Option String) :
    ((create_request_body (some u) sr ua vis).map Prod.fst =
      ["url"] ++ (if sr.isSome then ["screenshotsResolutions"] else []) ++
      (if ua.isSome then ["customHeaders"] else []) ++
      (if vis.isSome then ["visibility"] else [])) ∧
    (∀ p ∈ create_request_body (some u) sr ua vis, p.2 ≠ Json.null) ∧
    (∀ a, ua = some a →
      ("customHeaders", Json.obj [("user-agent", a)]) ∈
        create_request_body (some u) sr ua vis) ∧
    (sr = none → ua = none → vis = none →
      create_request_body (some u) sr ua vis = [("url", Json.str u)]) := by
  rcases sr with _ | rs <;> rcases ua with _ | a <;> rcases vis with _ | v <;>
    simp [create_request_body, optStrToJson]

/-- C9 (witness): the all-absent body at a concrete URL is exactly
`{"url": u}`. -/
theorem create_request_body_keys_witness :
    create_request_body (some "https://example.com") none none none =
      [("url", Json.str "https://example.com")] :=
  (create_request_body_keys "https://example.com" none none none).2.2.2 rfl rfl rfl


/-- C4 (amended): for every `SearchFilter` with exactly one field present,
`build_get_scan_url` produces exactly one query key-value pair whose key is
that field's upstream name (the scan-id parameter maps to `scanId`); values
are rendered in yarl's human-readable form, in which only `%`, `#`, `&`,
`+`, `;`, `=` and non-printable characters are percent-encoded, while space,
`?` and printable non-ASCII characters appear literally. -/
theorem single_filter_single_pair :
    (∀ (b : UrlBuilder) (v : String),
      filteredParams { account_scans := some v } = [("account_scans", v)] ∧
      b.build_get_scan_url { account_scans := some v } =
        b.urlBase ++ "?" ++ ("account_scans=" ++ humanQuote queryEscapes v)) ∧
    (∀ (b : UrlBuilder) (d : PyDateTime),
      filteredParams { date_end := some d } = [("date_end", d.isoformat)] ∧
      b.build_get_scan_url { date_end := some d } =
        b.urlBase ++ "?" ++ ("date_end=" ++ humanQuote queryEscapes d.isoformat)) ∧
    (∀ (b : UrlBuilder) (d : PyDateTime),
      filteredParams { date_start := some d } = [("date_start", d.isoformat)] ∧
      b.build_get_scan_url { date_start := some d } =
        b.urlBase ++ "?" ++ ("date_start=" ++ humanQuote queryEscapes d.isoformat)) ∧
    (∀ (b : UrlBuilder) (v : String),
      filteredParams { hostname := some v } = [("hostname", v)] ∧
      b.build_get_scan_url { hostname := some v } =
        b.urlBase ++ "?" ++ ("hostname=" ++ humanQuote queryEscapes v)) ∧
    (∀ (b : UrlBuilder) (v : String),
      filteredParams { ip := some v } = [("ip", v)] ∧
      b.build_get_scan_url { ip := some v } =
        b.urlBase ++ "?" ++ ("ip=" ++ humanQuote queryEscapes v)) ∧
    (∀ (b : UrlBuilder) (n : Int),
      filteredParams { limit := some n } = [("limit", toString n)] ∧
      b.build_get_scan_url { limit := some n } =
        b.urlBase ++ "?" ++ ("limit=" ++ humanQuote queryEscapes (toString n))) ∧
    (∀ (b : UrlBuilder) (v : String),
      filteredParams { next_cursor := some v } = [("next_cursor", v)] ∧
      b.build_get_scan_url { next_cursor := some v } =
        b.urlBase ++ "?" ++ ("next_cursor=" ++ humanQuote queryEscapes v)) ∧
    (∀ (b : UrlBuilder) (v : String),
      filteredParams { page_hostname := some v } = [("page_hostname", v)] ∧
      b.build_get_scan_url { page_hostname := some v } =
        b.urlBase ++ "?" ++ ("page_hostname=" ++ humanQuote queryEscapes v)) ∧
    (∀ (b : UrlBuilder) (v : String),
      filteredParams { page_ip := some v } = [("page_ip", v)] ∧
      b.build_get_scan_url { page_ip := some v } =
        b.urlBase ++ "?" ++ ("page_ip=" ++ humanQuote queryEscapes v)) ∧
    (∀ (b : UrlBuilder) (v : String),
      filteredParams { page_path := some v } = [("page_path", v)] ∧
      b.build_get_scan_url { page_path := some v } =
        b.urlBase ++ "?" ++ ("page_path=" ++ humanQuote queryEscapes v)) ∧
    (∀ (b : UrlBuilder) (v : String),
      filteredParams { page_url := some v } = [("page_url", v)] ∧
      b.build_get_scan_url { page_url := some v } =
        b.urlBase ++ "?" ++ ("page_url=" ++ humanQuote queryEscapes v)) ∧
    (∀ (b : UrlBuilder) (v : String),
      filteredParams { path := some v } = [("path", v)] ∧
      b.build_get_scan_url { path := some v } =
        b.urlBase ++ "?" ++ ("path=" ++ humanQuote queryEscapes v)) ∧
    (∀ (b : UrlBuilder) (v : String),
      filteredParams { uuid := some v } = [("scanId", v)] ∧
      b.build_get_scan_url { uuid := some v } =
        b.urlBase ++ "?" ++ ("scanId=" ++ humanQuote queryEscapes v)) ∧
    (∀ (b : UrlBuilder) (v : String),
      filteredParams { url := some v } = [("url", v)] ∧
      b.build_get_scan_url { url := some v } =
        b.urlBase ++ "?" ++ ("url=" ++ humanQuote queryEscapes v)) ∧
    humanQuote queryEscapes "a b" = "a b" ∧
    humanQuote queryEscapes "a+b&c;d=e#f%g" = "a%2Bb%26c%3Bd%3De%23f%25g" ∧
    humanQuote queryEscapes "café" = "café" :=
  ⟨url_single_account_scans, url_single_date_end, url_single_date_start,
   url_single_hostname, url_single_ip, url_single_limit, url_single_next_cursor,
   url_single_page_hostname, url_single_page_ip, url_single_page_path,
   url_single_page_url, url_single_path, url_single_uuid, url_single_url,
   by decide, by decide, by decide⟩

/-- C4 (counterexample): the scan-id value `a b` is rendered with a literal
space in the query string, not percent-encoded as `%20`. -/
theorem scanId_space_not_percent_encoded :
    (UrlBuilder.mk (some "acc1")).build_get_scan_url { uuid := some "a b" } =
      "https://api.cloudflare.com/client/v4/accounts/acc1/urlscanner/scan?scanId=a b" ∧
    ' ' ∈ ((UrlBuilder.mk (some "acc1")).build_get_scan_url
      { uuid := some "a b" }).data := by
  constructor
  · decide
  · decide

/-- C5: with every filter absent, `build_get_scan_url` returns exactly the
base URL, with no query string and no `?` anywhere (for an account id made
of characters that the human-readable rendering keeps verbatim). -/
theorem build_get_scan_url_all_absent (acc : String)
    (h : ∀ c ∈ acc.data, c ∉ pathEscapes ∧ pyIsPrintable c) :
    (UrlBuilder.mk (some acc)).build_get_scan_url {} =
      "https://api.cloudflare.com/client/v4/accounts/" ++ acc ++ "/urlscanner/scan" ∧
    '?' ∉ ((UrlBuilder.mk (some acc)).build_get_scan_url {}).data := by
  have h1 : humanQuote pathEscapes "/client/v4/accounts/" = "/client/v4/accounts/" := by
    decide
  have h2 : humanQuote pathEscapes "/urlscanner/scan" = "/urlscanner/scan" := by decide
  have hpath : humanQuote pathEscapes
      ("/client/v4/accounts/" ++ acc ++ "/urlscanner/scan") =
      "/client/v4/accounts/" ++ acc ++ "/urlscanner/scan" := by
    rw [humanQuote_append, humanQuote_append, humanQuote_id _ acc h, h1, h2]
  have heq : (UrlBuilder.mk (some acc)).build_get_scan_url {} =
      "https://api.cloudflare.com/client/v4/accounts/" ++ acc ++ "/urlscanner/scan" := by
    simp only [UrlBuilder.build_get_scan_url, UrlBuilder.scheme, UrlBuilder.host,
      UrlBuilder.basePathFormatted, formatOpt, humanRepr, filteredParams, searchParams,
      dropNone, humanQueryString, List.map_nil, joinAmp, empty_data, reduceIte, hpath]
    simp [String.append_assoc]
    rw [← String.append_assoc]
    simp
  refine ⟨heq, ?_⟩
  rw [heq]
  simp only [String.data_append, List.mem_append]
  rintro ((hq1 | hq2) | hq3)
  · revert hq1
    decide
  · exact (h '?' hq2).1 (by decide)
  · revert hq3
    decide

/-- C5 (witness): the concrete account id `abc123`. -/
theorem build_get_scan_url_all_absent_witness :
    (UrlBuilder.mk (some "abc123")).build_get_scan_url {} =
      "https://api.cloudflare.com/client/v4/accounts/" ++ "abc123" ++
        "/urlscanner/scan" ∧
    '?' ∉ ((UrlBuilder.mk (some "abc123")).build_get_scan_url {}).data :=
  build_get_scan_url_all_absent "abc123" (by decide)

/-- C6: a string filter supplied as the empty string is treated as present —
its key appears in the query (with an empty value) for each of the eleven
string-valued filters — while a filter that is not supplied at all
contributes nothing. -/
theorem empty_string_filter_included (b : UrlBuilder) :
    (filteredParams { account_scans := some "" } = [("account_scans", "")] ∧
      b.build_get_scan_url { account_scans := some "" } =
        b.urlBase ++ "?" ++ "account_scans=") ∧
    (filteredParams { hostname := some "" } = [("hostname", "")] ∧
      b.build_get_scan_url { hostname := some "" } =
        b.urlBase ++ "?" ++ "hostname=") ∧
    (filteredParams { ip := some "" } = [("ip", "")] ∧
      b.build_get_scan_url { ip := some "" } = b.urlBase ++ "?" ++ "ip=") ∧
    (filteredParams { next_cursor := some "" } = [("next_cursor", "")] ∧
      b.build_get_scan_url { next_cursor := some "" } =
        b.urlBase ++ "?" ++ "next_cursor=") ∧
    (filteredParams { page_hostname := some "" } = [("page_hostname", "")] ∧
      b.build_get_scan_url { page_hostname := some "" } =
        b.urlBase ++ "?" ++ "page_hostname=") ∧
    (filteredParams { page_ip := some "" } = [("page_ip", "")] ∧
      b.build_get_scan_url { page_ip := some "" } =
        b.urlBase ++ "?" ++ "page_ip=") ∧
    (filteredParams { page_path := some "" } = [("page_path", "")] ∧
      b.build_get_scan_url { page_path := some "" } =
        b.urlBase ++ "?" ++ "page_path=") ∧
    (filteredParams { page_url := some "" } = [("page_url", "")] ∧
      b.build_get_scan_url { page_url := some "" } =
        b.urlBase ++ "?" ++ "page_url=") ∧
    (filteredParams { path := some "" } = [("path", "")] ∧
      b.build_get_scan_url { path := some "" } = b.urlBase ++ "?" ++ "path=") ∧
    (filteredParams { uuid := some "" } = [("scanId", "")] ∧
      b.build_get_scan_url { uuid := some "" } =
        b.urlBase ++ "?" ++ "scanId=") ∧
    (filteredParams { url := some "" } = [("url", "")] ∧
      b.build_get_scan_url { url := some "" } = b.urlBase ++ "?" ++ "url=") ∧
    filteredParams ({} : SearchArgs) = [] := by
  refine ⟨?_, ?_, ?_, ?_, ?_, ?_, ?_, ?_, ?_, ?_, ?_, rfl⟩
  · simpa using url_single_account_scans b ""
  · simpa using url_single_hostname b ""
  · simpa using url_single_ip b ""
  · simpa using url_single_next_cursor b ""
  · simpa using url_single_page_hostname b ""
  · simpa using url_single_page_ip b ""
  · simpa using url_single_page_path b ""
  · simpa using url_single_page_url b ""
  · simpa using url_single_path b ""
  · simpa using url_single_uuid b ""
  · simpa using url_single_url b ""

/-- C7: a present `date_start`/`date_end` filter is rendered — before URL
encoding — as its `isoformat` string, and that string is a parseable
ISO-8601 timestamp: parsing it back recovers the full datetime, including
time-of-day and, when present, the timezone offset. -/
theorem date_filters_parse_iso8601 (a : SearchArgs) (d : PyDateTime)
    (hd : d.InRange) :
    (a.date_start = some d → ("date_start", d.isoformat) ∈ filteredParams a) ∧
    (a.date_end = some d → ("date_end", d.isoformat) ∈ filteredParams a) ∧
    parseIso8601 d.isoformat = some d := by
  refine ⟨fun hds => ?_, fun hde => ?_, parseIso8601_isoformat d hd⟩
  · exact mem_dropNone (by simp [searchParams, hds])
  · exact mem_dropNone (by simp [searchParams, hde])

/-- C7 (witness): a concrete timezone-aware datetime with microseconds. -/
theorem date_filters_parse_iso8601_witness :
    ("date_start", PyDateTime.isoformat ⟨2024, 5, 17, 13, 4, 5, 123456, some (-90)⟩) ∈
      filteredParams { date_start := some ⟨2024, 5, 17, 13, 4, 5, 123456, some (-90)⟩ } ∧
    parseIso8601 (PyDateTime.isoformat ⟨2024, 5, 17, 13, 4, 5, 123456, some (-90)⟩) =
      some ⟨2024, 5, 17, 13, 4, 5, 123456, some (-90)⟩ := by
  have h := date_filters_parse_iso8601
    { date_start := some ⟨2024, 5, 17, 13, 4, 5, 123456, some (-90)⟩ }
    ⟨2024, 5, 17, 13, 4, 5, 123456, some (-90)⟩
    ⟨by decide, by decide, by decide, by decide, by decide, by decide, by decide, by decide⟩
  exact ⟨h.1 rfl, h.2.2⟩

end CloudflareScan
